import Mathlib

/-!
Shallow embedding of `src/Lib/vtkCudaDeviceManager.cxx` (class
`vtkCUDADeviceManager`), the device/stream broker of the CUDAVolumeRendering
repository, together with proofs about its operations.

Modelling conventions:
* `vtkCUDAObject*` caller handles and `cudaStream_t*` stream handles are
  opaque tokens, modelled as `Nat` (a stream handle in the relation tables is
  never the null pointer, since only broker-created or caller-supplied
  non-null handles are inserted; the null `*stream` argument of `GetStream`
  is modelled as `Option.none`).
* Device indices are C `int`, modelled as `Int` (they can be negative).
* `std::multimap<vtkCUDAObject*,int> ObjectToDeviceMap`,
  `std::map<cudaStream_t*,int> StreamToDeviceMap` and
  `std::multimap<cudaStream_t*,vtkCUDAObject*> StreamToObjectMap` are
  modelled as association lists; a `std::map` additionally keeps its keys
  `Nodup` (stated as a hypothesis where a proof needs it).  The C++
  containers iterate in key order while the lists keep insertion order; every
  observable of the translated functions (membership, counts, unique-key
  lookups, erasure of an entry that equals the searched pair) only depends on
  the underlying multiset, so the translation is faithful.
* CUDA runtime calls are modelled by an explicit runtime state carrying the
  process's active device and an event trace (`cudaSetDevice`,
  `cudaDeviceReset` — which acts on the active device —,
  `cudaStreamSynchronize`, `cudaStreamDestroy`, `cudaStreamCreate`), plus a
  sticky last-error flag read and cleared by `cudaGetLastError`.
* The C++ methods return `bool` (`true` = failure) and report the failure
  kind through `vtkErrorMacro`; this is modelled as `Option ErrKind` where
  `none` is success and the `ErrKind` matches the emitted error message.
-/

set_option autoImplicit false

/-- Failure kinds, one per distinct `vtkErrorMacro` message of the broker. -/
inductive ErrKind where
  | InvalidDevice
  | NotFound
  | StreamDeviceMismatch
  | DeviceFault
  | AmbiguousOrAbsent
  deriving DecidableEq, Repr

/-- One observable CUDA runtime call issued by the broker. -/
inductive CudaEvent where
  | setDevice (d : Int)
  | deviceReset (d : Int)
  | streamSync (s : Nat)
  | streamDestroy (s : Nat)
  | streamCreate (s : Nat)
  deriving DecidableEq, Repr

/-- The modelled CUDA runtime: active device, fresh-handle counter for
`cudaStreamCreate`, sticky error flag, and the trace of issued calls. -/
structure CudaRuntime where
  activeDevice : Int
  nextHandle : Nat
  lastError : Bool
  events : List CudaEvent
  deriving DecidableEq, Repr

/-- `cudaSetDevice`: switches the process's active device. -/
def cudaSetDevice (rt : CudaRuntime) (d : Int) : CudaRuntime :=
  { rt with activeDevice := d, events := rt.events ++ [CudaEvent.setDevice d] }

/-- `cudaDeviceReset`: resets the currently active device. -/
def cudaDeviceReset (rt : CudaRuntime) : CudaRuntime :=
  { rt with events := rt.events ++ [CudaEvent.deviceReset rt.activeDevice] }

/-- `cudaStreamSynchronize`. -/
def cudaStreamSynchronize (rt : CudaRuntime) (s : Nat) : CudaRuntime :=
  { rt with events := rt.events ++ [CudaEvent.streamSync s] }

/-- `cudaStreamDestroy`. -/
def cudaStreamDestroy (rt : CudaRuntime) (s : Nat) : CudaRuntime :=
  { rt with events := rt.events ++ [CudaEvent.streamDestroy s] }

/-- `new cudaStream_t(); cudaStreamCreate(temp)`: yields a fresh handle. -/
def cudaStreamCreate (rt : CudaRuntime) : Nat × CudaRuntime :=
  (rt.nextHandle,
   { rt with nextHandle := rt.nextHandle + 1,
             events := rt.events ++ [CudaEvent.streamCreate rt.nextHandle] })

/-- `cudaGetLastError`: returns and clears the sticky error flag. -/
def cudaGetLastError (rt : CudaRuntime) : Bool × CudaRuntime :=
  (rt.lastError, { rt with lastError := false })

/-- The broker's relation state: `ObjectToDeviceMap` (owner ↔ device,
multimap), `StreamToDeviceMap` (stream → device, unique-key map) and
`StreamToObjectMap` (stream ↔ owner, multimap). -/
structure DeviceManager where
  objectToDeviceMap : List (Nat × Int)
  streamToDeviceMap : List (Nat × Int)
  streamToObjectMap : List (Nat × Nat)
  deriving DecidableEq, Repr

/-- First-match lookup in an association list (`std::map` find / `count==1`
guarded `operator[]` read). -/
def lookupMap {β : Type} : List (Nat × β) → Nat → Option β
  | [], _ => none
  | e :: rest, k => if e.1 = k then some e.2 else lookupMap rest k

/-- Number of entries with the given key (`container.count(k)`). -/
def countKey {β : Type} (m : List (Nat × β)) (k : Nat) : Nat :=
  m.countP (fun e => e.1 == k)

/-- `std::map::operator[]` for `int`-valued maps: returns the mapped value,
value-initialising (to `0`) and inserting a missing key. -/
def mapIndex (m : List (Nat × Int)) (k : Nat) : Int × List (Nat × Int) :=
  match lookupMap m k with
  | some v => (v, m)
  | none => (0, m ++ [(k, 0)])

/-- `std::map::insert(pair)`: inserts only when the key is not yet present. -/
def mapInsert (m : List (Nat × Int)) (k : Nat) (v : Int) : List (Nat × Int) :=
  if (lookupMap m k).isSome then m else m ++ [(k, v)]

/-- `vtkCUDADeviceManager::GetDevice` (spec: AcquireDevice).  The live device
count reported by `cudaGetDeviceCount` is passed as `numDevices`. -/
def GetDevice (numDevices : Int) (s : DeviceManager) (caller : Nat)
    (device : Int) : Option ErrKind × DeviceManager :=
  if device < 0 ∨ numDevices ≤ device then (some ErrKind.InvalidDevice, s)
  else
    (none, { s with objectToDeviceMap := s.objectToDeviceMap ++ [(caller, device)] })

/-- The device-reset block of `ReturnDevice` (lines 137–143): saves the
active device, switches to the released device if different, resets it, and
switches back if it had switched. -/
def resetDeviceSeq (rt : CudaRuntime) (device : Int) : CudaRuntime :=
  let oldDevice := rt.activeDevice
  let rt1 := if device ≠ oldDevice then cudaSetDevice rt device else rt
  let rt2 := cudaDeviceReset rt1
  if device ≠ oldDevice then cudaSetDevice rt2 oldDevice else rt2

/-- `vtkCUDADeviceManager::ReturnDevice` (spec: ReleaseDevice).  The single
pass over `ObjectToDeviceMap` sets `found` when an entry equals
`(caller, device)` and clears `emptyDevice` when an entry has this device but
fails the first test (so an entry by this very caller for this very device
never clears it); the stream-retiring loop computes `StreamToDeviceMap[...]`
for every StreamOwner entry — `operator[]` can default-insert — but its
`streamsToReturn` set is never populated, so no stream is released; the
matching OwnerDevice entry is erased; when `emptyDevice` held, the device is
reset (switching the active device around the reset if needed). -/
def ReturnDevice (s : DeviceManager) (rt : CudaRuntime) (caller : Nat)
    (device : Int) : Option ErrKind × DeviceManager × CudaRuntime :=
  if (caller, device) ∈ s.objectToDeviceMap then
    let emptyDevice := ∀ e ∈ s.objectToDeviceMap, e.2 = device → e.1 = caller
    let sdm := s.streamToObjectMap.foldl (fun m e => (mapIndex m e.1).2)
      s.streamToDeviceMap
    let s' : DeviceManager :=
      { objectToDeviceMap := s.objectToDeviceMap.erase (caller, device),
        streamToDeviceMap := sdm,
        streamToObjectMap := s.streamToObjectMap }
    let rt' := if emptyDevice then resetDeviceSeq rt device else rt
    (none, s', rt')
  else (some ErrKind.NotFound, s, rt)

/-- `vtkCUDADeviceManager::GetStream` (spec: AcquireStream).  `streamIn` is
the value of `*stream` on entry (`none` = null); the returned `Option Nat` is
its value on exit. -/
def GetStream (numDevices : Int) (s : DeviceManager) (rt : CudaRuntime)
    (caller : Nat) (streamIn : Option Nat) (device : Int) :
    Option ErrKind × Option Nat × DeviceManager × CudaRuntime :=
  if device < 0 ∨ numDevices ≤ device then
    (some ErrKind.InvalidDevice, streamIn, s, rt)
  else
    match streamIn with
    | some p =>
      if countKey s.streamToDeviceMap p = 1 ∧
          (mapIndex s.streamToDeviceMap p).1 ≠ device then
        (some ErrKind.StreamDeviceMismatch, some p, s, rt)
      else if (p, caller) ∈ s.streamToObjectMap then
        (none, some p, s, rt)
      else
        let rt := cudaSetDevice rt device
        (none, some p,
         { s with streamToDeviceMap := mapInsert s.streamToDeviceMap p device,
                  streamToObjectMap := s.streamToObjectMap ++ [(p, caller)] },
         rt)
    | none =>
      -- `*stream` null: the mismatch test short-circuits on `*stream` and the
      -- redundancy loop cannot match the null handle, so a stream is created.
      let rt := cudaSetDevice rt device
      let (h, rt) := cudaStreamCreate rt
      (none, some h,
       { s with streamToDeviceMap := mapInsert s.streamToDeviceMap h device,
                streamToObjectMap := s.streamToObjectMap ++ [(h, caller)] },
       rt)

/-- The search loop of `vtkCUDADeviceManager::ReturnStream`: walks the
StreamOwner entries; on an entry equal to `(stream, caller)` it evaluates
`StreamToDeviceMap[stream]` (which may default-insert) and stops when that
value equals `device`.  Returns the `found` flag and the possibly grown
StreamDevice map. -/
def findStreamOwner (entries : List (Nat × Nat)) (sdm : List (Nat × Int))
    (stream caller : Nat) (device : Int) : Bool × List (Nat × Int) :=
  match entries with
  | [] => (false, sdm)
  | e :: rest =>
    if e.1 = stream ∧ e.2 = caller then
      let (d, sdm') := mapIndex sdm e.1
      if d = device then (true, sdm')
      else findStreamOwner rest sdm' stream caller device
    else findStreamOwner rest sdm stream caller device

/-- `vtkCUDADeviceManager::ReturnStream` (spec: ReleaseStream).  On success it
erases the found `(stream, caller)` entry (the loop breaks at the first one)
and, when no StreamOwner entry for the stream remains, erases the stream's
StreamDevice entry (`std::map::erase(key)`).  No CUDA call is issued. -/
def ReturnStream (s : DeviceManager) (rt : CudaRuntime) (caller stream : Nat)
    (device : Int) : Option ErrKind × DeviceManager × CudaRuntime :=
  let fr := findStreamOwner s.streamToObjectMap s.streamToDeviceMap stream
    caller device
  if fr.1 then
    let som := s.streamToObjectMap.erase (stream, caller)
    let sdm := if countKey som stream = 0 then
        fr.2.filter (fun e => e.1 ≠ stream)
      else fr.2
    (none, { objectToDeviceMap := s.objectToDeviceMap,
             streamToDeviceMap := sdm,
             streamToObjectMap := som }, rt)
  else (some ErrKind.NotFound, { s with streamToDeviceMap := fr.2 }, rt)

/-- `vtkCUDADeviceManager::SynchronizeStream`: saves the active device,
switches to the stream's bound device, synchronizes the stream, restores the
saved device, and reports `cudaGetLastError`. -/
def SynchronizeStream (s : DeviceManager) (rt : CudaRuntime) (stream : Nat) :
    Option ErrKind × DeviceManager × CudaRuntime :=
  if countKey s.streamToDeviceMap stream ≠ 1 then (some ErrKind.NotFound, s, rt)
  else
    let device := (mapIndex s.streamToDeviceMap stream).1
    let oldDevice := rt.activeDevice
    let rt := cudaSetDevice rt device
    let rt := cudaStreamSynchronize rt stream
    let rt := cudaSetDevice rt oldDevice
    let er := cudaGetLastError rt
    (if er.1 then some ErrKind.DeviceFault else none, s, er.2)

/-- `vtkCUDADeviceManager::ReserveGPU` (spec: PinActiveDevice): switches to
the stream's bound device without restoring the previous one. -/
def ReserveGPU (s : DeviceManager) (rt : CudaRuntime) (stream : Nat) :
    Option ErrKind × DeviceManager × CudaRuntime :=
  if countKey s.streamToDeviceMap stream ≠ 1 then (some ErrKind.NotFound, s, rt)
  else
    let device := (mapIndex s.streamToDeviceMap stream).1
    let rt := cudaSetDevice rt device
    let er := cudaGetLastError rt
    (if er.1 then some ErrKind.DeviceFault else none, s, er.2)

/-- Removes the first entry with the given key (`std::map::erase(iterator)`
at the iterator found by the linear search). -/
def eraseFirstKey (m : List (Nat × Int)) (k : Nat) : List (Nat × Int) :=
  match m with
  | [] => []
  | e :: rest => if e.1 = k then rest else e :: eraseFirstKey rest k

/-- `vtkCUDADeviceManager::DestroyEmptyStream`: synchronizes the stream, then
looks it up in StreamDevice and erases (only) that entry when found. -/
def DestroyEmptyStream (s : DeviceManager) (rt : CudaRuntime) (stream : Nat) :
    DeviceManager × CudaRuntime :=
  let sync := SynchronizeStream s rt stream
  let s := sync.2.1
  let rt := sync.2.2
  if stream ∈ s.streamToDeviceMap.map Prod.fst then
    ({ s with streamToDeviceMap := eraseFirstKey s.streamToDeviceMap stream }, rt)
  else (s, rt)

/-- `std::set<int>::insert`: records a device index at most once.  (The C++
set iterates in ascending order, this list in first-insertion order; the
destructor's claims are insensitive to that order.) -/
def setInsert (l : List Int) (d : Int) : List Int :=
  if d ∈ l then l else l ++ [d]

/-- One iteration of the destructor's stream loop: synchronize the stream,
destroy it, record its device. -/
def dtorStreamStep (s : DeviceManager) (acc : CudaRuntime × List Int)
    (e : Nat × Int) : CudaRuntime × List Int :=
  let sync := SynchronizeStream s acc.1 e.1
  let rt := cudaStreamDestroy sync.2.2 e.1
  (rt, setInsert acc.2 e.2)

/-- `vtkCUDADeviceManager::~vtkCUDADeviceManager`: synchronizes and destroys
every stream of StreamDevice collecting the used devices, then resets each
collected device once, then clears all three relations. -/
def destroyManager (s : DeviceManager) (rt : CudaRuntime) :
    DeviceManager × CudaRuntime :=
  let fin := s.streamToDeviceMap.foldl (dtorStreamStep s) (rt, [])
  let rt := fin.1
  let rt := fin.2.foldl (fun rt d => cudaDeviceReset (cudaSetDevice rt d)) rt
  (⟨[], [], []⟩, rt)

/-- The devices of the `deviceReset` events of a trace, in order. -/
def resetEvents (evs : List CudaEvent) : List Int :=
  evs.filterMap (fun e => match e with
    | CudaEvent.deviceReset d => some d
    | _ => none)

/-- Spec §3 invariant 1: every stream appearing in StreamOwner also appears
in StreamDevice. -/
def streamInv (s : DeviceManager) : Prop :=
  ∀ p ∈ s.streamToObjectMap, p.1 ∈ s.streamToDeviceMap.map Prod.fst

instance (s : DeviceManager) : Decidable (streamInv s) := by
  unfold streamInv; infer_instance

/-- The trace emitted for one stream entry by the destructor's first loop
(`act` is the active device on loop entry, which each iteration restores). -/
def syncBlock (act : Int) (e : Nat × Int) : List CudaEvent :=
  [CudaEvent.setDevice e.2, CudaEvent.streamSync e.1,
   CudaEvent.setDevice act, CudaEvent.streamDestroy e.1]

/-- The trace emitted for one collected device by the destructor's second
loop. -/
def resetBlock (d : Int) : List CudaEvent :=
  [CudaEvent.setDevice d, CudaEvent.deviceReset d]

/-- Claim C4: `AcquireDevice(owner, deviceIndex)` fails with InvalidDevice and
changes no relation when `deviceIndex` is outside `[0, deviceCount)`;
otherwise it succeeds and appends `(owner, deviceIndex)` to OwnerDevice, a
repeated acquisition being recorded as an additional separate entry (the
multiplicity of the pair increases by one). -/
theorem getDevice_spec (numDevices : Int) (s : DeviceManager) (caller : Nat)
    (device : Int) :
    ((device < 0 ∨ numDevices ≤ device) →
      GetDevice numDevices s caller device = (some ErrKind.InvalidDevice, s)) ∧
    (¬(device < 0 ∨ numDevices ≤ device) →
      GetDevice numDevices s caller device =
        (none, { s with objectToDeviceMap := s.objectToDeviceMap ++ [(caller, device)] }) ∧
      ((GetDevice numDevices s caller device).2.objectToDeviceMap.count (caller, device) =
        s.objectToDeviceMap.count (caller, device) + 1)) := by
  constructor
  · intro h
    simp [GetDevice, h]
  · intro h
    simp [GetDevice, h]

/-- Witness for C4: both branches of `getDevice_spec` at concrete inputs
(device count 2, owner 5; invalid index `-1`, valid index `0`). -/
theorem getDevice_spec_witness :
    GetDevice 2 ⟨[], [], []⟩ 5 (-1) = (some ErrKind.InvalidDevice, ⟨[], [], []⟩) ∧
    GetDevice 2 ⟨[(5, 0)], [], []⟩ 5 0 = (none, ⟨[(5, 0), (5, 0)], [], []⟩) ∧
    (GetDevice 2 ⟨[(5, 0)], [], []⟩ 5 0).2.objectToDeviceMap.count (5, 0) =
      ([(5, 0)] : List (Nat × Int)).count (5, 0) + 1 := by
  refine ⟨(getDevice_spec 2 ⟨[], [], []⟩ 5 (-1)).1 (by decide), ?_, ?_⟩
  · exact ((getDevice_spec 2 ⟨[(5, 0)], [], []⟩ 5 0).2 (by decide)).1
  · exact ((getDevice_spec 2 ⟨[(5, 0)], [], []⟩ 5 0).2 (by decide)).2

/-- Concatenation of the per-element traces of a list (the event trace of a
loop that emits `f e` for each element `e`). -/
def traceOf {a : Type} (f : a -> List CudaEvent) : List a -> List CudaEvent
  | [] => []
  | e :: rest => f e ++ traceOf f rest

/-! ### Helper lemmas -/

theorem resetEvents_append (a b : List CudaEvent) :
    resetEvents (a ++ b) = resetEvents a ++ resetEvents b := by
  simp [resetEvents]

theorem resetEvents_resetDeviceSeq (rt : CudaRuntime) (device : Int) :
    resetEvents (resetDeviceSeq rt device).events =
      resetEvents rt.events ++ [device] := by
  by_cases h : device ≠ rt.activeDevice
  · simp [resetDeviceSeq, h, cudaSetDevice, cudaDeviceReset, resetEvents]
  · push_neg at h
    simp [resetDeviceSeq, h, cudaSetDevice, cudaDeviceReset, resetEvents]

theorem synchronizeStream_success (s : DeviceManager) (rt : CudaRuntime)
    (stream : Nat) (d : Int) (hc : countKey s.streamToDeviceMap stream = 1)
    (hl : lookupMap s.streamToDeviceMap stream = some d) :
    SynchronizeStream s rt stream =
      ((if rt.lastError then some ErrKind.DeviceFault else none), s,
       ⟨rt.activeDevice, rt.nextHandle, false,
        rt.events ++ [CudaEvent.setDevice d, CudaEvent.streamSync stream,
          CudaEvent.setDevice rt.activeDevice]⟩) := by
  simp [SynchronizeStream, hc, mapIndex, hl, cudaSetDevice,
    cudaStreamSynchronize, cudaGetLastError]

theorem reserveGPU_success (s : DeviceManager) (rt : CudaRuntime)
    (stream : Nat) (d : Int) (hc : countKey s.streamToDeviceMap stream = 1)
    (hl : lookupMap s.streamToDeviceMap stream = some d) :
    ReserveGPU s rt stream =
      ((if rt.lastError then some ErrKind.DeviceFault else none), s,
       ⟨d, rt.nextHandle, false, rt.events ++ [CudaEvent.setDevice d]⟩) := by
  simp [ReserveGPU, hc, mapIndex, hl, cudaSetDevice, cudaGetLastError]

/-! ### Claim theorems (C5, C6, C8) -/

/-- Claim C5: when the `(stream, owner)` pair is already recorded in
StreamOwner (and, per §4's preceding validation steps, the device index is
valid and the stream's StreamDevice binding is this very device),
`AcquireStream` succeeds, returns the same stream, and changes neither the
relations nor the runtime: re-acquisition is idempotent. -/
theorem getStream_idempotent (numDevices : Int) (s : DeviceManager)
    (rt : CudaRuntime) (caller stream : Nat) (device : Int)
    (hmem : (stream, caller) ∈ s.streamToObjectMap)
    (hcnt : countKey s.streamToDeviceMap stream = 1)
    (hbind : lookupMap s.streamToDeviceMap stream = some device)
    (h0 : 0 ≤ device) (hn : device < numDevices) :
    GetStream numDevices s rt caller (some stream) device =
      (none, some stream, s, rt) := by
  simp [GetStream, not_lt.mp (not_lt.mpr h0), not_le.mpr hn, hcnt, mapIndex,
    hbind, hmem, not_lt_of_ge h0]

/-- Witness for C5 at stream 3 bound to device 0, owner 7, device count 2. -/
theorem getStream_idempotent_witness :
    GetStream 2 ⟨[], [(3, 0)], [(3, 7)]⟩ ⟨0, 100, false, []⟩ 7 (some 3) 0 =
      (none, some 3, ⟨[], [(3, 0)], [(3, 7)]⟩, ⟨0, 100, false, []⟩) :=
  getStream_idempotent 2 ⟨[], [(3, 0)], [(3, 7)]⟩ ⟨0, 100, false, []⟩ 7 3 0
    (by decide) (by decide) (by decide) (by decide) (by decide)

/-- Claim C6: `AcquireStream` on a stream already bound (as the unique
StreamDevice entry) to device `A`, requesting a valid device `B ≠ A`, fails
with StreamDeviceMismatch and changes nothing. -/
theorem getStream_mismatch (numDevices : Int) (s : DeviceManager)
    (rt : CudaRuntime) (caller stream : Nat) (A B : Int)
    (hcnt : countKey s.streamToDeviceMap stream = 1)
    (hbind : lookupMap s.streamToDeviceMap stream = some A)
    (hne : A ≠ B) (h0 : 0 ≤ B) (hn : B < numDevices) :
    GetStream numDevices s rt caller (some stream) B =
      (some ErrKind.StreamDeviceMismatch, some stream, s, rt) := by
  simp [GetStream, not_le.mpr hn, hcnt, mapIndex, hbind, hne,
    not_lt_of_ge h0]

/-- Witness for C6: stream 3 bound to device 0, requesting device 1. -/
theorem getStream_mismatch_witness :
    GetStream 2 ⟨[], [(3, 0)], [(3, 7)]⟩ ⟨0, 100, false, []⟩ 7 (some 3) 1 =
      (some ErrKind.StreamDeviceMismatch, some 3,
       ⟨[], [(3, 0)], [(3, 7)]⟩, ⟨0, 100, false, []⟩) :=
  getStream_mismatch 2 ⟨[], [(3, 0)], [(3, 7)]⟩ ⟨0, 100, false, []⟩ 7 3 0 1
    (by decide) (by decide) (by decide) (by decide) (by decide)

/-- Claim C8: with no StreamDevice entry, both `SynchronizeStream` and
`ReserveGPU` (PinActiveDevice) fail with NotFound and change nothing; with a
StreamDevice entry bound to `d`, `SynchronizeStream` restores the previously
active device after switching to `d` and synchronizing, while `ReserveGPU`
leaves the active device set to `d`; neither touches the relations. -/
theorem syncReserve_activeDevice (s : DeviceManager) (rt : CudaRuntime)
    (stream : Nat) :
    (countKey s.streamToDeviceMap stream = 0 →
      SynchronizeStream s rt stream = (some ErrKind.NotFound, s, rt) ∧
      ReserveGPU s rt stream = (some ErrKind.NotFound, s, rt)) ∧
    (∀ d : Int, countKey s.streamToDeviceMap stream = 1 →
      lookupMap s.streamToDeviceMap stream = some d →
      (SynchronizeStream s rt stream).2.1 = s ∧
      (SynchronizeStream s rt stream).2.2.activeDevice = rt.activeDevice ∧
      (SynchronizeStream s rt stream).2.2.events =
        rt.events ++ [CudaEvent.setDevice d, CudaEvent.streamSync stream,
          CudaEvent.setDevice rt.activeDevice] ∧
      (ReserveGPU s rt stream).2.1 = s ∧
      (ReserveGPU s rt stream).2.2.activeDevice = d ∧
      (ReserveGPU s rt stream).2.2.events =
        rt.events ++ [CudaEvent.setDevice d]) := by
  constructor
  · intro h0
    constructor
    · simp [SynchronizeStream, h0]
    · simp [ReserveGPU, h0]
  · intro d hc hl
    rw [synchronizeStream_success s rt stream d hc hl,
      reserveGPU_success s rt stream d hc hl]
    simp

/-- Witness for C8: stream 3 bound to device 1 (bound branch) and stream 9
with no entry (NotFound branch). -/
theorem syncReserve_activeDevice_witness :
    (SynchronizeStream ⟨[], [(3, 1)], []⟩ ⟨0, 100, false, []⟩ 9 =
      (some ErrKind.NotFound, ⟨[], [(3, 1)], []⟩, ⟨0, 100, false, []⟩)) ∧
    ((SynchronizeStream ⟨[], [(3, 1)], []⟩ ⟨0, 100, false, []⟩ 3).2.2.activeDevice = 0) ∧
    ((ReserveGPU ⟨[], [(3, 1)], []⟩ ⟨0, 100, false, []⟩ 3).2.2.activeDevice = 1) := by
  have hu := syncReserve_activeDevice ⟨[], [(3, 1)], []⟩ ⟨0, 100, false, []⟩ 9
  have hb := syncReserve_activeDevice ⟨[], [(3, 1)], []⟩ ⟨0, 100, false, []⟩ 3
  exact ⟨(hu.1 (by decide)).1, (hb.2 1 (by decide) (by decide)).2.1,
    (hb.2 1 (by decide) (by decide)).2.2.2.2.1⟩

/-! ### ReturnDevice characterization and claims C1, C2, C3 -/

theorem returnDevice_mem (s : DeviceManager) (rt : CudaRuntime) (caller : Nat)
    (device : Int) (hmem : (caller, device) ∈ s.objectToDeviceMap) :
    ReturnDevice s rt caller device =
      (none,
       ⟨s.objectToDeviceMap.erase (caller, device),
        s.streamToObjectMap.foldl (fun m e => (mapIndex m e.1).2)
          s.streamToDeviceMap,
        s.streamToObjectMap⟩,
       if ∀ e ∈ s.objectToDeviceMap, e.2 = device → e.1 = caller then
         resetDeviceSeq rt device
       else rt) := by
  simp [ReturnDevice, hmem]

/-- Claim C1: the code evaluated at a failing input.  Owner 7 holds device 0
and also holds stream 3, which is bound to device 0; `ReturnDevice(7, 0)`
succeeds (and even resets the device), yet both the StreamOwner entry
`(3, 7)` and the StreamDevice entry `(3, 0)` survive untouched: the released
owner's streams on the released device are NOT retired, because the
`streamsToReturn` set of the stream-retiring loop is never populated. -/
theorem returnDevice_keeps_streams :
    ReturnDevice ⟨[(7, 0)], [(3, 0)], [(3, 7)]⟩ ⟨0, 100, false, []⟩ 7 0 =
      (none, ⟨[], [(3, 0)], [(3, 7)]⟩,
       ⟨0, 100, false, [CudaEvent.deviceReset 0]⟩) := by
  decide

/-- Counterexample to claim C2 as stated: owner 0 holds device 0 twice and
releases it once.  The release succeeds, an OwnerDevice entry `(0, 0)` for
the device remains, and yet the device IS reset (the duplicate entry by the
same owner falls into the `found` branch of the scan, so it never clears
`emptyDevice`). -/
theorem returnDevice_reset_despite_remaining :
    (ReturnDevice ⟨[(0, 0), (0, 0)], [], []⟩ ⟨0, 100, false, []⟩ 0 0).1 = none ∧
    (0, 0) ∈ (ReturnDevice ⟨[(0, 0), (0, 0)], [], []⟩
      ⟨0, 100, false, []⟩ 0 0).2.1.objectToDeviceMap ∧
    resetEvents (ReturnDevice ⟨[(0, 0), (0, 0)], [], []⟩
      ⟨0, 100, false, []⟩ 0 0).2.2.events = [0] := by
  decide

/-- Claim C2 (amended): a successful `ReleaseDevice(owner, device)` performs
the device reset if and only if every OwnerDevice entry for that device
belongs to the releasing owner — equivalently, iff no entry for the device by
a *different* owner remains after the removal; duplicate entries for the
device by the releasing owner itself do not prevent the reset. -/
theorem returnDevice_reset_iff (s : DeviceManager) (rt : CudaRuntime)
    (caller : Nat) (device : Int)
    (hmem : (caller, device) ∈ s.objectToDeviceMap) :
    (ReturnDevice s rt caller device).1 = none ∧
    resetEvents (ReturnDevice s rt caller device).2.2.events =
      resetEvents rt.events ++
        (if ∀ e ∈ s.objectToDeviceMap, e.2 = device → e.1 = caller then
          [device] else []) := by
  rw [returnDevice_mem s rt caller device hmem]
  by_cases h : ∀ e ∈ s.objectToDeviceMap, e.2 = device → e.1 = caller
  · rw [if_pos h, if_pos h]
    simp [resetEvents_resetDeviceSeq]
  · rw [if_neg h, if_neg h]
    simp

/-- Witness for the amended C2: owner 1 is the sole holder of device 0, so
its release resets the device. -/
theorem returnDevice_reset_iff_witness :
    ((1 : Nat), (0 : Int)) ∈ ([(1, 0)] : List (Nat × Int)) ∧
    ((ReturnDevice ⟨[(1, 0)], [], []⟩ ⟨0, 100, false, []⟩ 1 0).1 = none ∧
     resetEvents (ReturnDevice ⟨[(1, 0)], [], []⟩
       ⟨0, 100, false, []⟩ 1 0).2.2.events =
       resetEvents (⟨0, 100, false, []⟩ : CudaRuntime).events ++
         (if ∀ e ∈ ([(1, 0)] : List (Nat × Int)), e.2 = 0 → e.1 = 1 then
           [0] else [])) :=
  ⟨by decide, returnDevice_reset_iff ⟨[(1, 0)], [], []⟩ ⟨0, 100, false, []⟩ 1 0
    (by decide)⟩

/-- Claim C3: from an empty broker, two distinct owners `A ≠ B` each acquire
valid device `d` once; `A`'s release succeeds and does not reset the device
(the runtime is returned untouched), and `B`'s subsequent release succeeds
and appends exactly one reset, of device `d`, to the trace. -/
theorem twoOwners_reset_once (numDevices : Int) (rt : CudaRuntime) (A B : Nat)
    (d : Int) (hAB : A ≠ B) (h0 : 0 ≤ d) (hn : d < numDevices) :
    (GetDevice numDevices ⟨[], [], []⟩ A d = (none, ⟨[(A, d)], [], []⟩)) ∧
    (GetDevice numDevices ⟨[(A, d)], [], []⟩ B d =
      (none, ⟨[(A, d), (B, d)], [], []⟩)) ∧
    (ReturnDevice ⟨[(A, d), (B, d)], [], []⟩ rt A d =
      (none, ⟨[(B, d)], [], []⟩, rt)) ∧
    ((ReturnDevice ⟨[(B, d)], [], []⟩ rt B d).1 = none ∧
     resetEvents (ReturnDevice ⟨[(B, d)], [], []⟩ rt B d).2.2.events =
       resetEvents rt.events ++ [d]) := by
  refine ⟨?_, ?_, ?_, ?_, ?_⟩
  · simp [GetDevice, not_le.mpr hn, not_lt_of_ge h0]
  · simp [GetDevice, not_le.mpr hn, not_lt_of_ge h0]
  · rw [returnDevice_mem ⟨[(A, d), (B, d)], [], []⟩ rt A d (by simp)]
    simp [Ne.symm hAB]
  · rw [returnDevice_mem ⟨[(B, d)], [], []⟩ rt B d (by simp)]
  · rw [returnDevice_mem ⟨[(B, d)], [], []⟩ rt B d (by simp)]
    simp [resetEvents_resetDeviceSeq]

/-- Witness for C3: owners 1 and 2, device 0, device count 2. -/
theorem twoOwners_reset_once_witness :
    (GetDevice 2 ⟨[], [], []⟩ 1 0 = (none, ⟨[(1, 0)], [], []⟩)) ∧
    (GetDevice 2 ⟨[(1, 0)], [], []⟩ 2 0 =
      (none, ⟨[(1, 0), (2, 0)], [], []⟩)) ∧
    (ReturnDevice ⟨[(1, 0), (2, 0)], [], []⟩ ⟨0, 100, false, []⟩ 1 0 =
      (none, ⟨[(2, 0)], [], []⟩, ⟨0, 100, false, []⟩)) ∧
    ((ReturnDevice ⟨[(2, 0)], [], []⟩ ⟨0, 100, false, []⟩ 2 0).1 = none ∧
     resetEvents (ReturnDevice ⟨[(2, 0)], [], []⟩
       ⟨0, 100, false, []⟩ 2 0).2.2.events =
       resetEvents (⟨0, 100, false, []⟩ : CudaRuntime).events ++ [0]) :=
  twoOwners_reset_once 2 ⟨0, 100, false, []⟩ 1 2 0 (by decide) (by decide)
    (by decide)

/-! ### ReturnStream characterization and claim C7 -/

theorem findStreamOwner_not_mem (entries : List (Nat × Nat))
    (sdm : List (Nat × Int)) (stream caller : Nat) (device : Int)
    (h : (stream, caller) ∉ entries) :
    findStreamOwner entries sdm stream caller device = (false, sdm) := by
  induction entries with
  | nil => rfl
  | cons e rest ih =>
    simp only [List.mem_cons, not_or] at h
    rw [findStreamOwner, if_neg (fun hc => h.1 (Prod.ext_iff.mpr
      ⟨hc.1.symm, hc.2.symm⟩))]
    exact ih h.2

theorem findStreamOwner_wrong_device (entries : List (Nat × Nat))
    (sdm : List (Nat × Int)) (stream caller : Nat) (device d : Int)
    (hl : lookupMap sdm stream = some d) (hd : d ≠ device) :
    findStreamOwner entries sdm stream caller device = (false, sdm) := by
  induction entries with
  | nil => rfl
  | cons e rest ih =>
    rw [findStreamOwner]
    by_cases hc : e.1 = stream ∧ e.2 = caller
    · rw [if_pos hc]
      have hmi : mapIndex sdm e.1 = (d, sdm) := by
        rw [hc.1]; simp [mapIndex, hl]
      rw [hmi]
      simpa [hd] using ih
    · rw [if_neg hc]
      exact ih

theorem findStreamOwner_found (entries : List (Nat × Nat))
    (sdm : List (Nat × Int)) (stream caller : Nat) (device : Int)
    (hl : lookupMap sdm stream = some device)
    (hmem : (stream, caller) ∈ entries) :
    findStreamOwner entries sdm stream caller device = (true, sdm) := by
  induction entries with
  | nil => cases hmem
  | cons e rest ih =>
    rw [findStreamOwner]
    by_cases hc : e.1 = stream ∧ e.2 = caller
    · rw [if_pos hc]
      have hmi : mapIndex sdm e.1 = (device, sdm) := by
        rw [hc.1]; simp [mapIndex, hl]
      rw [hmi]
      simp
    · rcases List.mem_cons.mp hmem with he | hr
      · exact absurd ⟨(Prod.ext_iff.mp he).1.symm,
          (Prod.ext_iff.mp he).2.symm⟩ hc
      · rw [if_neg hc]
        exact ih hr

/-- Claim C7: provided a stream owned in StreamOwner is also bound in
StreamDevice (spec §3 invariant 1, which every state reachable without
`DestroyEmptyStream` satisfies — without it, the `operator[]` lookup in the
search loop default-inserts a binding to device 0), `ReleaseStream` fails
with NotFound and changes nothing unless StreamOwner holds exactly
`(stream, owner)` and StreamDevice maps the stream to `deviceIndex`; on
success it removes exactly one `(stream, owner)` entry, removes the stream's
StreamDevice entry iff no StreamOwner entry for the stream remains, and
issues no CUDA call (in particular it does not destroy the stream). -/
theorem returnStream_spec (s : DeviceManager) (rt : CudaRuntime)
    (caller stream : Nat) (device : Int)
    (hinv : (stream, caller) ∈ s.streamToObjectMap →
      (lookupMap s.streamToDeviceMap stream).isSome) :
    (¬((stream, caller) ∈ s.streamToObjectMap ∧
        lookupMap s.streamToDeviceMap stream = some device) →
      ReturnStream s rt caller stream device =
        (some ErrKind.NotFound, s, rt)) ∧
    ((stream, caller) ∈ s.streamToObjectMap →
      lookupMap s.streamToDeviceMap stream = some device →
      ReturnStream s rt caller stream device =
        (none,
         ⟨s.objectToDeviceMap,
          if countKey (s.streamToObjectMap.erase (stream, caller)) stream = 0
          then s.streamToDeviceMap.filter (fun e => e.1 ≠ stream)
          else s.streamToDeviceMap,
          s.streamToObjectMap.erase (stream, caller)⟩,
         rt) ∧
      (s.streamToObjectMap.erase (stream, caller)).count (stream, caller) + 1 =
        s.streamToObjectMap.count (stream, caller)) := by
  constructor
  · intro hne
    by_cases hm : (stream, caller) ∈ s.streamToObjectMap
    · obtain ⟨d, hl⟩ := Option.isSome_iff_exists.mp (hinv hm)
      have hd : d ≠ device := fun h => hne ⟨hm, h ▸ hl⟩
      simp [ReturnStream,
        findStreamOwner_wrong_device s.streamToObjectMap s.streamToDeviceMap
          stream caller device d hl hd]
    · simp [ReturnStream,
        findStreamOwner_not_mem s.streamToObjectMap s.streamToDeviceMap
          stream caller device hm]
  · intro hm hl
    refine ⟨?_, ?_⟩
    · simp [ReturnStream,
        findStreamOwner_found s.streamToObjectMap s.streamToDeviceMap
          stream caller device hl hm]
    · have hpos : 0 < s.streamToObjectMap.count (stream, caller) :=
        List.count_pos_iff.mpr hm
      have := List.count_erase_self (stream, caller) s.streamToObjectMap
      omega

/-- Witness for C7: a mismatched device index fails and changes nothing;
a matching release removes one of the two owner entries of stream 3 and
keeps its device binding because another owner remains. -/
theorem returnStream_spec_witness :
    (ReturnStream ⟨[], [(3, 0)], [(3, 7)]⟩ ⟨0, 100, false, []⟩ 7 3 5 =
      (some ErrKind.NotFound, ⟨[], [(3, 0)], [(3, 7)]⟩,
       ⟨0, 100, false, []⟩)) ∧
    (ReturnStream ⟨[], [(3, 0)], [(3, 7), (3, 8)]⟩ ⟨0, 100, false, []⟩ 7 3 0 =
      (none, ⟨[], [(3, 0)], [(3, 8)]⟩, ⟨0, 100, false, []⟩)) := by
  constructor
  · exact (returnStream_spec ⟨[], [(3, 0)], [(3, 7)]⟩ ⟨0, 100, false, []⟩
      7 3 5 (by decide)).1 (by decide)
  · have h := (returnStream_spec ⟨[], [(3, 0)], [(3, 7), (3, 8)]⟩
      ⟨0, 100, false, []⟩ 7 3 0 (by decide)).2 (by decide) (by decide)
    rw [h.1]
    decide

/-! ### DestroyEmptyStream and claim C10 -/

theorem lookupMap_some_mem_keys {β : Type} (m : List (Nat × β)) (k : Nat)
    (v : β) (hl : lookupMap m k = some v) : k ∈ m.map Prod.fst := by
  induction m with
  | nil => cases hl
  | cons e rest ih =>
    rw [lookupMap] at hl
    by_cases he : e.1 = k
    · simp [he]
    · rw [if_neg he] at hl
      simp [ih hl]

theorem eraseFirstKey_eq_filter (m : List (Nat × Int)) (k : Nat)
    (hnd : (m.map Prod.fst).Nodup) :
    eraseFirstKey m k = m.filter (fun e => e.1 ≠ k) := by
  induction m with
  | nil => rfl
  | cons e rest ih =>
    simp only [List.map_cons, List.nodup_cons] at hnd
    rw [eraseFirstKey]
    by_cases he : e.1 = k
    · rw [if_pos he]
      have hcons : List.filter (fun e => decide (e.1 ≠ k)) (e :: rest) =
          List.filter (fun e => decide (e.1 ≠ k)) rest := by
        simp [List.filter_cons, he]
      rw [hcons]
      symm
      apply List.filter_eq_self.mpr
      intro a ha
      simp only [decide_eq_true_eq]
      intro hak
      exact hnd.1 (List.mem_map.mpr ⟨a, ha, hak.trans he.symm⟩)
    · rw [if_neg he]
      simp only [List.filter_cons]
      rw [ih hnd.2]
      simp [he]

theorem synchronizeStream_state (s : DeviceManager) (rt : CudaRuntime)
    (stream : Nat) : (SynchronizeStream s rt stream).2.1 = s := by
  rw [SynchronizeStream]
  split <;> rfl

/-- Claim C10: for a stream with a StreamDevice entry, `DestroyEmptyStream`
removes only that entry (OwnerDevice and StreamOwner are untouched), and —
assuming spec §3 invariant 1 held before — the invariant still holds
afterwards if and only if the stream had zero StreamOwner entries. -/
theorem destroyEmptyStream_spec (s : DeviceManager) (rt : CudaRuntime)
    (stream : Nat) (d : Int)
    (hnd : (s.streamToDeviceMap.map Prod.fst).Nodup)
    (hl : lookupMap s.streamToDeviceMap stream = some d) :
    (DestroyEmptyStream s rt stream).1 =
      ⟨s.objectToDeviceMap,
       s.streamToDeviceMap.filter (fun e => e.1 ≠ stream),
       s.streamToObjectMap⟩ ∧
    (streamInv s →
      (streamInv (DestroyEmptyStream s rt stream).1 ↔
        countKey s.streamToObjectMap stream = 0)) := by
  have hstate : (DestroyEmptyStream s rt stream).1 =
      ⟨s.objectToDeviceMap,
       s.streamToDeviceMap.filter (fun e => e.1 ≠ stream),
       s.streamToObjectMap⟩ := by
    rw [DestroyEmptyStream, synchronizeStream_state,
      if_pos (lookupMap_some_mem_keys s.streamToDeviceMap stream d hl),
      eraseFirstKey_eq_filter s.streamToDeviceMap stream hnd]
  refine ⟨hstate, fun hInv => ?_⟩
  rw [hstate]
  constructor
  · intro hAfter
    by_contra hc
    have hpos : 0 < s.streamToObjectMap.countP (fun e => e.1 == stream) :=
      Nat.pos_of_ne_zero hc
    obtain ⟨p, hp, hps⟩ := List.countP_pos_iff.mp hpos
    have hps' : p.1 = stream := by simpa using hps
    have := hAfter p hp
    simp only [List.mem_map] at this
    obtain ⟨q, hq, hq1⟩ := this
    have hqf := (List.mem_filter.mp hq).2
    simp only [ne_eq, decide_eq_true_eq] at hqf
    exact hqf (hq1.trans hps')
  · intro h0 p hp
    have hplook := hInv p hp
    simp only [List.mem_map] at hplook
    obtain ⟨q, hq, hq1⟩ := hplook
    have hpne : p.1 ≠ stream := by
      intro hps
      have := List.countP_eq_zero.mp h0 p hp
      simp [hps] at this
    refine List.mem_map.mpr ⟨q, List.mem_filter.mpr ⟨hq, ?_⟩, hq1⟩
    simp only [ne_eq, decide_eq_true_eq]
    exact fun hqs => hpne (hq1 ▸ hqs)

/-- Witness for C10: stream 3 is bound to device 0 and still owned by owner
7, so destroying it removes the binding and breaks invariant 1. -/
theorem destroyEmptyStream_spec_witness :
    (DestroyEmptyStream ⟨[], [(3, 0)], [(3, 7)]⟩ ⟨0, 100, false, []⟩ 3).1 =
      ⟨[], [], [(3, 7)]⟩ ∧
    ¬ streamInv (⟨[], [], [(3, 7)]⟩ : DeviceManager) := by
  have h := destroyEmptyStream_spec ⟨[], [(3, 0)], [(3, 7)]⟩
    ⟨0, 100, false, []⟩ 3 0 (by decide) (by decide)
  refine ⟨?_, by decide⟩
  rw [h.1]
  decide

/-! ### Destructor characterization and claim C9 -/

theorem nodupKeys_count_lookup {β : Type} (m : List (Nat × β))
    (hnd : (m.map Prod.fst).Nodup) :
    ∀ e ∈ m, countKey m e.1 = 1 ∧ lookupMap m e.1 = some e.2 := by
  induction m with
  | nil => simp
  | cons a rest ih =>
    simp only [List.map_cons, List.nodup_cons] at hnd
    intro e he
    rcases List.mem_cons.mp he with rfl | hr
    · constructor
      · unfold countKey
        rw [List.countP_cons]
        have h0 : rest.countP (fun x => x.1 == e.1) = 0 := by
          apply List.countP_eq_zero.mpr
          intro x hx
          simp only [beq_iff_eq]
          intro hx1
          apply hnd.1
          rw [← hx1]
          exact List.mem_map.mpr ⟨x, hx, rfl⟩
        rw [h0]
        simp
      · rw [lookupMap]
        simp
    · have hne : a.1 ≠ e.1 := by
        intro h
        apply hnd.1
        rw [h]
        exact List.mem_map.mpr ⟨e, hr, rfl⟩
      have hrest := ih hnd.2 e hr
      constructor
      · have h1 := hrest.1
        unfold countKey at h1 ⊢
        rw [List.countP_cons]
        simp [hne, h1]
      · rw [lookupMap, if_neg hne]
        exact hrest.2

theorem dtorLoop_char (s : DeviceManager) (l : List (Nat × Int)) :
    ∀ (rt : CudaRuntime) (devs : List Int),
    (∀ e ∈ l, countKey s.streamToDeviceMap e.1 = 1 ∧
      lookupMap s.streamToDeviceMap e.1 = some e.2) →
    (l.foldl (dtorStreamStep s) (rt, devs)).1.events =
        rt.events ++ traceOf (syncBlock rt.activeDevice) l ∧
    (l.foldl (dtorStreamStep s) (rt, devs)).1.activeDevice = rt.activeDevice ∧
    (l.foldl (dtorStreamStep s) (rt, devs)).2 =
        l.foldl (fun acc e => setInsert acc e.2) devs := by
  induction l with
  | nil => exact fun rt devs _ => ⟨by simp [traceOf], rfl, rfl⟩
  | cons e rest ih =>
    intro rt devs H
    have he := H e (List.mem_cons_self e rest)
    have hstep : dtorStreamStep s (rt, devs) e =
        (⟨rt.activeDevice, rt.nextHandle, false,
          rt.events ++ syncBlock rt.activeDevice e⟩, setInsert devs e.2) := by
      unfold dtorStreamStep
      rw [synchronizeStream_success s rt e.1 e.2 he.1 he.2]
      simp [cudaStreamDestroy, syncBlock]
    rw [List.foldl_cons, hstep]
    have ihr := ih ⟨rt.activeDevice, rt.nextHandle, false,
      rt.events ++ syncBlock rt.activeDevice e⟩ (setInsert devs e.2)
      (fun x hx => H x (List.mem_cons_of_mem e hx))
    refine ⟨?_, ?_, ?_⟩
    · rw [ihr.1]
      simp [traceOf]
    · rw [ihr.2.1]
    · rw [ihr.2.2, List.foldl_cons]

theorem resetLoop_events (devs : List Int) : ∀ rt : CudaRuntime,
    (devs.foldl (fun rt d => cudaDeviceReset (cudaSetDevice rt d)) rt).events =
      rt.events ++ traceOf resetBlock devs := by
  induction devs with
  | nil => intro rt; simp [traceOf]
  | cons d rest ih =>
    intro rt
    rw [List.foldl_cons, ih]
    simp [cudaSetDevice, cudaDeviceReset, resetBlock, traceOf]

theorem count_traceOf_syncBlock_sync (a : Int) (l : List (Nat × Int))
    (st : Nat) :
    (traceOf (syncBlock a) l).count (CudaEvent.streamSync st) =
      countKey l st := by
  induction l with
  | nil => rfl
  | cons e rest ih =>
    rw [traceOf, List.count_append, ih]
    unfold countKey
    rw [List.countP_cons]
    by_cases he : e.1 = st
    · simp [syncBlock, List.count_cons, he, countKey, Nat.add_comm]
    · simp [syncBlock, List.count_cons, he, Ne.symm he, countKey]

theorem count_traceOf_syncBlock_destroy (a : Int) (l : List (Nat × Int))
    (st : Nat) :
    (traceOf (syncBlock a) l).count (CudaEvent.streamDestroy st) =
      countKey l st := by
  induction l with
  | nil => rfl
  | cons e rest ih =>
    rw [traceOf, List.count_append, ih]
    unfold countKey
    rw [List.countP_cons]
    by_cases he : e.1 = st
    · simp [syncBlock, List.count_cons, he, countKey, Nat.add_comm]
    · simp [syncBlock, List.count_cons, he, Ne.symm he, countKey]

theorem count_traceOf_syncBlock_reset (a : Int) (l : List (Nat × Int))
    (dv : Int) :
    (traceOf (syncBlock a) l).count (CudaEvent.deviceReset dv) = 0 := by
  induction l with
  | nil => rfl
  | cons e rest ih =>
    rw [traceOf, List.count_append, ih]
    simp [syncBlock, List.count_cons]

theorem count_traceOf_resetBlock_reset (devs : List Int) (dv : Int) :
    (traceOf resetBlock devs).count (CudaEvent.deviceReset dv) =
      devs.count dv := by
  induction devs with
  | nil => rfl
  | cons d rest ih =>
    rw [traceOf, List.count_append, ih, List.count_cons]
    by_cases hd : dv = d
    · simp [resetBlock, List.count_cons, hd, Nat.add_comm]
    · simp [resetBlock, List.count_cons, hd, Ne.symm hd]

theorem count_traceOf_resetBlock_sync (devs : List Int) (st : Nat) :
    (traceOf resetBlock devs).count (CudaEvent.streamSync st) = 0 := by
  induction devs with
  | nil => rfl
  | cons d rest ih =>
    rw [traceOf, List.count_append, ih]
    simp [resetBlock, List.count_cons]

theorem count_traceOf_resetBlock_destroy (devs : List Int) (st : Nat) :
    (traceOf resetBlock devs).count (CudaEvent.streamDestroy st) = 0 := by
  induction devs with
  | nil => rfl
  | cons d rest ih =>
    rw [traceOf, List.count_append, ih]
    simp [resetBlock, List.count_cons]

theorem mem_setInsert (l : List Int) (x d : Int) :
    d ∈ setInsert l x ↔ d ∈ l ∨ d = x := by
  unfold setInsert
  by_cases h : x ∈ l
  · rw [if_pos h]
    constructor
    · exact fun hd => Or.inl hd
    · rintro (hd | rfl)
      · exact hd
      · exact h
  · rw [if_neg h]
    simp

theorem nodup_setInsert (l : List Int) (x : Int) (h : l.Nodup) :
    (setInsert l x).Nodup := by
  unfold setInsert
  by_cases hx : x ∈ l
  · rw [if_pos hx]
    exact h
  · rw [if_neg hx]
    simp [List.nodup_append, h, hx]

theorem mem_foldl_setInsert (l : List (Nat × Int)) :
    ∀ (acc : List Int) (dv : Int),
    dv ∈ l.foldl (fun acc e => setInsert acc e.2) acc ↔
      dv ∈ acc ∨ dv ∈ l.map Prod.snd := by
  induction l with
  | nil => simp
  | cons e rest ih =>
    intro acc dv
    rw [List.foldl_cons, ih, mem_setInsert, List.map_cons, List.mem_cons]
    tauto

theorem nodup_foldl_setInsert (l : List (Nat × Int)) :
    ∀ acc : List Int, acc.Nodup →
      (l.foldl (fun acc e => setInsert acc e.2) acc).Nodup := by
  induction l with
  | nil => exact fun acc h => h
  | cons e rest ih =>
    intro acc h
    rw [List.foldl_cons]
    exact ih _ (nodup_setInsert acc e.2 h)

/-- Claim C9: broker destruction (with the `std::map` key uniqueness of
StreamDevice as hypothesis) leaves all three relations empty, synchronizes
and physically destroys each stream of StreamDevice exactly once, and resets
exactly once each device that hosted at least one stream — and no other
device. -/
theorem destroyManager_spec (s : DeviceManager) (rt : CudaRuntime)
    (hnd : (s.streamToDeviceMap.map Prod.fst).Nodup) :
    (destroyManager s rt).1 = ⟨[], [], []⟩ ∧
    (∀ e ∈ s.streamToDeviceMap,
      (destroyManager s rt).2.events.count (CudaEvent.streamSync e.1) =
        rt.events.count (CudaEvent.streamSync e.1) + 1 ∧
      (destroyManager s rt).2.events.count (CudaEvent.streamDestroy e.1) =
        rt.events.count (CudaEvent.streamDestroy e.1) + 1) ∧
    (∀ dv : Int,
      (destroyManager s rt).2.events.count (CudaEvent.deviceReset dv) =
        rt.events.count (CudaEvent.deviceReset dv) +
          (if dv ∈ s.streamToDeviceMap.map Prod.snd then 1 else 0)) := by
  have H := nodupKeys_count_lookup s.streamToDeviceMap hnd
  have hloop := dtorLoop_char s s.streamToDeviceMap rt [] H
  have hev : (destroyManager s rt).2.events =
      rt.events ++ traceOf (syncBlock rt.activeDevice) s.streamToDeviceMap ++
        traceOf resetBlock (s.streamToDeviceMap.foldl
          (fun acc e => setInsert acc e.2) []) := by
    unfold destroyManager
    rw [resetLoop_events, hloop.1, hloop.2.2]
  have hdevs_nodup : (s.streamToDeviceMap.foldl
      (fun acc e => setInsert acc e.2) []).Nodup :=
    nodup_foldl_setInsert s.streamToDeviceMap [] List.nodup_nil
  refine ⟨rfl, ?_, ?_⟩
  · intro e he
    constructor
    · rw [hev, List.count_append, List.count_append,
        count_traceOf_syncBlock_sync, count_traceOf_resetBlock_sync,
        (H e he).1]
    · rw [hev, List.count_append, List.count_append,
        count_traceOf_syncBlock_destroy, count_traceOf_resetBlock_destroy,
        (H e he).1]
  · intro dv
    rw [hev, List.count_append, List.count_append,
      count_traceOf_syncBlock_reset, count_traceOf_resetBlock_reset]
    by_cases hdv : dv ∈ s.streamToDeviceMap.map Prod.snd
    · have hmem : dv ∈ s.streamToDeviceMap.foldl
          (fun acc e => setInsert acc e.2) [] :=
        (mem_foldl_setInsert s.streamToDeviceMap [] dv).mpr (Or.inr hdv)
      rw [List.count_eq_one_of_mem hdevs_nodup hmem, if_pos hdv]
    · have hnmem : dv ∉ s.streamToDeviceMap.foldl
          (fun acc e => setInsert acc e.2) [] := by
        intro hm
        rcases (mem_foldl_setInsert s.streamToDeviceMap [] dv).mp hm with
          h | h
        · cases h
        · exact hdv h
      rw [List.count_eq_zero_of_not_mem hnmem, if_neg hdv]

/-- Witness for C9: streams 1 (device 0) and 2 (device 1) outstanding; both
are synchronized and destroyed once, both devices reset once, device 5 never
reset, and the relations end empty. -/
theorem destroyManager_spec_witness :
    (destroyManager ⟨[(9, 0)], [(1, 0), (2, 1)], [(1, 5)]⟩
      ⟨0, 100, false, []⟩).1 = ⟨[], [], []⟩ ∧
    (destroyManager ⟨[(9, 0)], [(1, 0), (2, 1)], [(1, 5)]⟩
      ⟨0, 100, false, []⟩).2.events.count (CudaEvent.streamSync 1) = 1 ∧
    (destroyManager ⟨[(9, 0)], [(1, 0), (2, 1)], [(1, 5)]⟩
      ⟨0, 100, false, []⟩).2.events.count (CudaEvent.streamDestroy 2) = 1 ∧
    (destroyManager ⟨[(9, 0)], [(1, 0), (2, 1)], [(1, 5)]⟩
      ⟨0, 100, false, []⟩).2.events.count (CudaEvent.deviceReset 0) = 1 ∧
    (destroyManager ⟨[(9, 0)], [(1, 0), (2, 1)], [(1, 5)]⟩
      ⟨0, 100, false, []⟩).2.events.count (CudaEvent.deviceReset 1) = 1 ∧
    (destroyManager ⟨[(9, 0)], [(1, 0), (2, 1)], [(1, 5)]⟩
      ⟨0, 100, false, []⟩).2.events.count (CudaEvent.deviceReset 5) = 0 := by
  have h := destroyManager_spec ⟨[(9, 0)], [(1, 0), (2, 1)], [(1, 5)]⟩
    ⟨0, 100, false, []⟩ (by decide)
  refine ⟨h.1, ?_, ?_, ?_, ?_, ?_⟩
  · simpa using (h.2.1 (1, 0) (by decide)).1
  · simpa using (h.2.1 (2, 1) (by decide)).2
  · simpa using h.2.2 0
  · simpa using h.2.2 1
  · simpa using h.2.2 5
